import Mathlib

/-!
Shallow embedding of `pylogic/api.py` (a client for the Saleae Logic socket
scripting protocol) and proofs about its framing and command layers.

The network is modelled explicitly: each operation takes the raw response
string the socket would deliver and returns the Python result (or the raised
exception) together with the list of byte requests actually written to the
socket before the result was produced.
-/

namespace Pylogic

/-- Exceptions that can be raised by the client code.  The first five mirror
the repository's own classes and Python built-ins it raises
(`ArgumentError`, `CommandError`, `InvalidResponse`, `AssertionError` from the
`assert` statement, `NotImplementedError`, which the spec calls
`UnsupportedOperationError`).  The remaining constructors are the Python
built-in exceptions that the code can raise implicitly (`UnicodeEncodeError`
from `str.encode('ascii')`, `TypeError`, `AttributeError` from calling a
method on `None`, `ValueError` from `int()` or tuple unpacking). -/
inductive Err
  | argumentError (msg : String)
  | commandError (resp : String)
  | invalidResponse (resp : String)
  | assertionError (msg : String)
  | notImplementedError
  | unicodeEncodeError (s : String)
  | typeError (msg : String)
  | attributeError (msg : String)
  | valueError (msg : String)
deriving Repr, DecidableEq

/-- The value returned by `API.command`: Python `None` (when there were no
data lines), a single list of fields (single-line mode), or a list of
field-lists (multiline mode). -/
inductive PyResult
  | none
  | line (fields : List String)
  | lines (rows : List (List String))
deriving Repr, DecidableEq

/-- Decidable equality for `Except` results, so that concrete outcomes can be
settled by `decide`. -/
instance exceptDecEq {ε α : Type} [DecidableEq ε] [DecidableEq α] :
    DecidableEq (Except ε α) := fun x y =>
  match x, y with
  | .error a, .error b =>
    if h : a = b then .isTrue (by rw [h]) else .isFalse (fun hh => h (Except.error.inj hh))
  | .ok a, .ok b =>
    if h : a = b then .isTrue (by rw [h]) else .isFalse (fun hh => h (Except.ok.inj hh))
  | .error _, .ok _ => .isFalse (fun hh => Except.noConfusion hh)
  | .ok _, .error _ => .isFalse (fun hh => Except.noConfusion hh)

/-- Python `sep.join(xs)`. -/
def pyJoin (sep : String) : List String → String
  | [] => ""
  | [x] => x
  | x :: y :: rest => x ++ sep ++ pyJoin sep (y :: rest)

/-- The request string built by `API.command`:
`','.join(str(arg) for arg in args) + '\0'`.  Arguments are taken already in
string form (`str(arg)`). -/
def requestString (args : List String) : String :=
  pyJoin "," args ++ "\x00"

/-- Whether every character of `s` is representable in ASCII. -/
def isAscii (s : String) : Bool :=
  s.data.all (fun c => c.toNat < 128)

/-- The ASCII bytes of a string (meaningful when `isAscii s`). -/
def asciiBytes (s : String) : List Nat :=
  s.data.map Char.toNat

/-- Python `s.encode('ascii')`: the byte sequence, or `UnicodeEncodeError` if
some character is not ASCII. -/
def pyEncodeAscii (s : String) : Except Err (List Nat) :=
  if isAscii s then .ok (asciiBytes s) else .error (.unicodeEncodeError s)

/-- Splitting a character list on a single-character separator, keeping empty
groups, as Python `str.split` does with a one-character separator.  The
result is always nonempty. -/
def splitOnChar (sep : Char) : List Char → List (List Char)
  | [] => [[]]
  | c :: rest =>
    if c = sep then [] :: splitOnChar sep rest
    else
      match splitOnChar sep rest with
      | [] => [[c]]
      | g :: gs => (c :: g) :: gs

/-- Splitting a character list on a two-character separator, scanning left to
right without overlap, as Python `str.split` does with a two-character
separator.  The result is always nonempty. -/
def splitOnPair (s1 s2 : Char) : List Char → List (List Char)
  | [] => [[]]
  | [c] => [[c]]
  | c1 :: c2 :: rest =>
    if c1 = s1 ∧ c2 = s2 then [] :: splitOnPair s1 s2 rest
    else
      match splitOnPair s1 s2 (c2 :: rest) with
      | [] => [[c1]]
      | g :: gs => (c1 :: g) :: gs

/-- Python `resp.split('\n')`. -/
def pySplitNewline (s : String) : List String :=
  (splitOnChar '\n' s.data).map (fun cs => ⟨cs⟩)

/-- Python `line.split(', ')`. -/
def pySplitCommaSpace (s : String) : List String :=
  (splitOnPair ',' ' ' s.data).map (fun cs => ⟨cs⟩)

/-- Python `s.strip()` on ASCII text: drop leading and trailing whitespace
characters. -/
def pyStrip (cs : List Char) : List Char :=
  ((cs.dropWhile Char.isWhitespace).reverse.dropWhile Char.isWhitespace).reverse

/-- The response-parsing part of `API.command`: split the decoded response on
newline, pop the last element as the status token, check `NAK`/`ACK`, then
split each remaining data line on the two-character separator `", "`.  In
single-line mode an `assert` enforces exactly one data line. -/
def parseResponse (resp : String) (multiline : Bool) : Except Err PyResult :=
  let allLines := pySplitNewline resp
  let status := allLines.getLastD ""
  let dataLines := allLines.dropLast
  if status = "NAK" then .error (.commandError resp)
  else if status ≠ "ACK" then .error (.invalidResponse resp)
  else if dataLines.isEmpty then .ok .none
  else
    let rows := dataLines.map pySplitCommaSpace
    if multiline then .ok (.lines rows)
    else if rows.length = 1 then .ok (.line (rows.headD []))
    else .error (.assertionError "expected 1 line, got more")

/-- `API.command(*args, multiline=...)`: encode the request (which can raise
`UnicodeEncodeError` before anything is sent), send it, then parse the
response.  The second component is the list of byte requests written to the
socket. -/
def command (args : List String) (multiline : Bool) (resp : String) :
    Except Err PyResult × List (List Nat) :=
  match pyEncodeAscii (requestString args) with
  | .error e => (.error e, [])
  | .ok req => (parseResponse resp multiline, [req])

/-- Numeric value of a list of decimal digit characters. -/
def digitsVal (ds : List Char) : Nat :=
  ds.foldl (fun n c => 10 * n + (c.toNat - 48)) 0

/-- Parses a nonempty all-digit character list. -/
def parseDigits (ds : List Char) : Option Nat :=
  if !ds.isEmpty && ds.all Char.isDigit then some (digitsVal ds) else none

/-- Python `int(s)` on ASCII input: strip surrounding whitespace, allow an
optional sign followed by decimal digits, raise `ValueError` otherwise.
(Unicode digits and underscore digit grouping are not modelled; no input in
this development uses them.) -/
def pyInt (s : String) : Except Err Int :=
  match pyStrip s.data with
  | '-' :: ds =>
    match parseDigits ds with
    | some n => .ok (-(n : Int))
    | Option.none => .error (.valueError s)
  | '+' :: ds =>
    match parseDigits ds with
    | some n => .ok (n : Int)
    | Option.none => .error (.valueError s)
  | ds =>
    match parseDigits ds with
    | some n => .ok (n : Int)
    | Option.none => .error (.valueError s)

/-- The set of accepted trigger mode strings in `API.set_trigger`. -/
def validTriggerMode (ch : String) : Bool :=
  ch = "" || ch = "high" || ch = "low" || ch = "negedge" || ch = "posedge"

/-- The validation loop of `API.set_trigger`: returns the error message for
the first invalid channel mode, if any (`ii` is the running index from
`enumerate`). -/
def checkTriggerModes : Nat → List String → Option String
  | _, [] => Option.none
  | ii, ch :: rest =>
    if validTriggerMode ch then checkTriggerModes (ii + 1) rest
    else some ("Invalid trigger mode: " ++ ch ++ " for channel " ++ toString ii)

/-- `API.set_trigger(*channels)`: validate each mode locally, raising
`ArgumentError` at the first invalid one before any network I/O; otherwise
delegate to `command('set_trigger', *channels)`.  (Python first maps each
channel through `ch or ''`, which is the identity on strings; the blank mode
is the empty string.) -/
def set_trigger (channels : List String) (resp : String) :
    Except Err PyResult × List (List Nat) :=
  match checkTriggerModes 0 channels with
  | some msg => (.error (.argumentError msg), [])
  | Option.none => command ("set_trigger" :: channels) false resp

/-- `API.get_performance_option()`: single-line command, returns
`int(resp[0])`.  When `command` returned `None`, subscripting it raises
`TypeError`. -/
def get_performance_option (resp : String) : Except Err Int :=
  match (command ["get_performance_option"] false resp).1 with
  | .error e => .error e
  | .ok (.line l) => pyInt (l.headD "")
  | .ok .none => .error (.typeError "NoneType object is not subscriptable")
  | .ok (.lines _) => .error (.typeError "int argument must be a string")

/-- Decodes one row of the sample-rate listing: Python unpacks the row as
`digital, analog` (raising `ValueError` unless it has exactly two fields) and
converts each with `int`. -/
def decodeRatePair (row : List String) : Except Err (Int × Int) :=
  match row with
  | [d, a] =>
    match pyInt d with
    | .error e => .error e
    | .ok dv =>
      match pyInt a with
      | .error e => .error e
      | .ok av => .ok (dv, av)
  | _ => .error (.valueError "not enough values to unpack")

/-- `API.get_available_sample_rates()`: multiline command, each row decoded
into an `(int, int)` pair in response order.  When `command` returned `None`
(no data lines), iterating over it raises `TypeError`. -/
def get_available_sample_rates (resp : String) : Except Err (List (Int × Int)) :=
  match (command ["get_all_sample_rates"] true resp).1 with
  | .error e => .error e
  | .ok (.lines rows) => rows.mapM decodeRatePair
  | .ok .none => .error (.typeError "NoneType object is not iterable")
  | .ok (.line _) => .error (.valueError "not enough values to unpack")

/-- The result record of `API.get_active_channels`. -/
structure Channels where
  digital : List Int
  analog : List Int
deriving Repr, DecidableEq

/-- Whether a field is one of the two marker tokens of the active-channel
line. -/
def isMarker (s : String) : Bool :=
  s = "digital_channels" || s = "analog_channels"

/-- Which list the mutable `current` alias of `API.get_active_channels`
points at. -/
inductive Cur
  | dig
  | ana
deriving Repr, DecidableEq

/-- The field loop of `API.get_active_channels`: a marker token redirects
`current`; any other token is appended (as `int`) to the current list.  While
`current` is still `None` (no marker seen yet), `current.append` raises
`AttributeError`; Python evaluates `current.append` before `int(el)`, so the
`AttributeError` fires even for non-integer tokens. -/
def partitionChannels : List String → List Int → List Int → Option Cur →
    Except Err (List Int × List Int)
  | [], d, a, _ => .ok (d, a)
  | el :: rest, d, a, cur =>
    if el = "digital_channels" then partitionChannels rest d a (some .dig)
    else if el = "analog_channels" then partitionChannels rest d a (some .ana)
    else
      match cur with
      | Option.none => .error (.attributeError "NoneType object has no attribute append")
      | some .dig =>
        match pyInt el with
        | .error e => .error e
        | .ok v => partitionChannels rest (d ++ [v]) a (some .dig)
      | some .ana =>
        match pyInt el with
        | .error e => .error e
        | .ok v => partitionChannels rest d (a ++ [v]) (some .ana)

/-- `API.get_active_channels()`: single-line command whose fields are
partitioned by the marker tokens into the digital and analog lists.  When
`command` returned `None`, iterating over it raises `TypeError`. -/
def get_active_channels (resp : String) : Except Err Channels :=
  match (command ["get_active_channels"] false resp).1 with
  | .error e => .error e
  | .ok (.line l) =>
    match partitionChannels l [] [] Option.none with
    | .error e => .error e
    | .ok (d, a) => .ok ⟨d, a⟩
  | .ok .none => .error (.typeError "NoneType object is not iterable")
  | .ok (.lines _) => .error (.typeError "int argument must be a string")

/-- `API.get_inputs()`: raises `NotImplementedError` immediately (the spec's
`UnsupportedOperationError`), without any network I/O. -/
def get_inputs : Except Err PyResult × List (List Nat) :=
  (.error .notImplementedError, [])

/-- Discriminator: is this outcome a raised `ArgumentError`? -/
def isArgErr : Except Err PyResult → Bool
  | .error (.argumentError _) => true
  | _ => false

/-- Discriminator: is this outcome a raised `AttributeError`? -/
def isAttrErr : Except Err Channels → Bool
  | .error (.attributeError _) => true
  | _ => false

/-- Discriminator for the partition loop's result: a raised
`AttributeError`? -/
def isAttrErrP : Except Err (List Int × List Int) → Bool
  | .error (.attributeError _) => true
  | _ => false

/-- The precondition of claim C10, transcribed: every non-marker field of the
token list is preceded (strictly earlier in the list) by some marker field. -/
def markerPrecedes (toks : List String) : Bool :=
  (List.range toks.length).all
    (fun i => isMarker (toks.getD i "") || (toks.take i).any isMarker)

/-! ## Helper lemmas -/

theorem pyEncodeAscii_ok {s : String} (h : isAscii s = true) :
    pyEncodeAscii s = .ok (asciiBytes s) := by
  simp [pyEncodeAscii, h]

theorem command_eq {args : List String} (h : isAscii (requestString args) = true)
    (multiline : Bool) (resp : String) :
    command args multiline resp =
      (parseResponse resp multiline, [asciiBytes (requestString args)]) := by
  simp [command, pyEncodeAscii_ok h]

/-! ## C1: status-token checking in the framing layer -/

/-- C1: for every received response string, after splitting on newline and
taking the last line as the status token, a `NAK` status raises
`CommandError` carrying the full raw response, and a status that is neither
`ACK` nor `NAK` raises `InvalidResponse` carrying the full raw response,
regardless of the preceding data lines (and of the multiline flag). -/
theorem C1_status_check (args : List String) (multiline : Bool) (resp : String)
    (hargs : isAscii (requestString args) = true) :
    (((pySplitNewline resp).getLastD "" = "NAK" →
        (command args multiline resp).1 = .error (.commandError resp)) ∧
      ((pySplitNewline resp).getLastD "" ≠ "NAK" →
        (pySplitNewline resp).getLastD "" ≠ "ACK" →
        (command args multiline resp).1 = .error (.invalidResponse resp))) := by
  rw [command_eq hargs]
  refine ⟨fun h => ?_, fun h1 h2 => ?_⟩
  · rw [List.getLastD_eq_getLast?] at h
    simp [parseResponse, h]
  · rw [List.getLastD_eq_getLast?] at h1 h2
    simp [parseResponse, h1, h2]

/-- Witness for C1 at concrete inputs: a `NAK`-terminated and a
`BAD`-terminated response. -/
theorem C1_status_check_witness :
    (command ["capture"] false "NAK").1 = .error (.commandError "NAK") ∧
    (command ["capture"] false "1\nBAD").1 = .error (.invalidResponse "1\nBAD") := by
  constructor
  · exact (C1_status_check ["capture"] false "NAK" (by decide)).1 (by decide)
  · exact (C1_status_check ["capture"] false "1\nBAD" (by decide)).2 (by decide) (by decide)

/-! ## C2: round trip of the get-performance-option command -/

/-- C2 counterexample: on the mocked response `"33\nACK\n"` (with a trailing
newline) the status token popped from the end of the line list is the empty
string, so the call raises `InvalidResponse` instead of returning 33. -/
theorem C2_trailing_newline_counterexample :
    get_performance_option "33\nACK\n" = .error (.invalidResponse "33\nACK\n") ∧
    get_performance_option "33\nACK\n" ≠ .ok 33 := by
  exact ⟨rfl, by decide⟩

/-- C2 amended: decoding the mocked response `"33\nACK"` (no trailing
newline, so the last line is the status token `ACK`) succeeds and yields the
integer 33. -/
theorem C2_roundtrip : get_performance_option "33\nACK" = .ok 33 := by rfl

/-! ## C3: multiline command with zero data lines -/

/-- C3 counterexample: with `multiline` true and an `ACK` response with zero
data lines, `command` returns Python `None` (it falls through the
`if lines:` guard), not the empty list of field-sequences. -/
theorem C3_none_counterexample :
    (command ["get_connected_devices"] true "ACK").1 = .ok PyResult.none ∧
    (command ["get_connected_devices"] true "ACK").1 ≠ .ok (.lines []) := by
  exact ⟨rfl, by decide⟩

/-- C3 amended: with `multiline` true, when the response status is `ACK` and
there are zero data lines, the operation succeeds and returns no result
(Python `None`), not an empty sequence. -/
theorem C3_empty_ack (args : List String) (h : isAscii (requestString args) = true) :
    (command args true "ACK").1 = .ok PyResult.none := by
  rw [command_eq h]
  rfl

/-- Witness for C3 at a concrete command. -/
theorem C3_empty_ack_witness :
    (command ["get_connected_devices"] true "ACK").1 = .ok PyResult.none :=
  C3_empty_ack ["get_connected_devices"] (by decide)

/-! ## C4: request encoding -/

theorem isAscii_append (s t : String) : isAscii (s ++ t) = (isAscii s && isAscii t) := by
  simp [isAscii, String.data_append, List.all_append]

theorem asciiBytes_append (s t : String) :
    asciiBytes (s ++ t) = asciiBytes s ++ asciiBytes t := by
  simp [asciiBytes, String.data_append]

theorem pyJoin_ascii {fs : List String} (sep : String) (hsep : isAscii sep = true)
    (h : ∀ f ∈ fs, isAscii f = true) : isAscii (pyJoin sep fs) = true := by
  induction fs with
  | nil => rfl
  | cons x xs ih =>
    cases xs with
    | nil => exact h x (by simp)
    | cons y ys =>
      rw [pyJoin, isAscii_append, isAscii_append]
      simp [h x (by simp), hsep, ih (fun f hf => h f (by simp [hf]))]

theorem requestString_ascii {fs : List String} (h : ∀ f ∈ fs, isAscii f = true) :
    isAscii (requestString fs) = true := by
  rw [requestString, isAscii_append, pyJoin_ascii "," (by decide) h]
  rfl

/-- C4: for every command name and argument list (in string form, each
representable in ASCII), the wire request written to the socket is the name
and the arguments joined by single commas, followed by exactly one NUL byte,
as ASCII bytes. -/
theorem C4_request_encoding (name : String) (args : List String) (multiline : Bool)
    (resp : String) (h : ∀ f ∈ name :: args, isAscii f = true) :
    (command (name :: args) multiline resp).2 =
      [asciiBytes (pyJoin "," (name :: args)) ++ [0]] := by
  rw [command_eq (requestString_ascii h), requestString, asciiBytes_append]
  rfl

/-- Witness for C4 at a concrete command with one argument. -/
theorem C4_request_encoding_witness :
    (command ["set_performance_option", "33"] false "ACK").2 =
      [asciiBytes (pyJoin "," ["set_performance_option", "33"]) ++ [0]] :=
  C4_request_encoding "set_performance_option" ["33"] false "ACK" (by decide)

/-! ## C5: single-line mode with more than one data line -/

/-- C5 counterexample: an `ACK` response with two data lines in single-line
mode fails the `assert len(lines) == 1` statement, raising `AssertionError`,
not `InvalidResponse`. -/
theorem C5_assert_counterexample :
    (command ["get_num_samples"] false "1\n2\nACK").1 =
      .error (.assertionError "expected 1 line, got more") ∧
    (command ["get_num_samples"] false "1\n2\nACK").1 ≠
      .error (.invalidResponse "1\n2\nACK") :=
  ⟨rfl, by decide⟩

/-- C5 amended: with `multiline` false, an `ACK` response containing more
than one data line fails with an `AssertionError` (the `assert` that enforces
the single-line expectation), not with `InvalidResponse`. -/
theorem C5_single_line_assert (args : List String) (resp : String)
    (hargs : isAscii (requestString args) = true)
    (hstatus : (pySplitNewline resp).getLastD "" = "ACK")
    (hlen : 1 < (pySplitNewline resp).dropLast.length) :
    (command args false resp).1 = .error (.assertionError "expected 1 line, got more") := by
  rw [command_eq hargs]
  rw [List.getLastD_eq_getLast?] at hstatus
  have hne : ¬(pySplitNewline resp).dropLast = [] := by
    intro e
    rw [e] at hlen
    simp at hlen
  have hlen1 : ¬(pySplitNewline resp).dropLast.length = 1 := by omega
  have hlen2 : ¬(pySplitNewline resp).length = 2 := by
    have := List.length_dropLast (pySplitNewline resp)
    omega
  simp [parseResponse, hstatus, hne, hlen1, hlen2]

/-- Witness for C5 at a two-data-line response. -/
theorem C5_single_line_assert_witness :
    (command ["get_connected_devices"] false "1\n2\nACK").1 =
      .error (.assertionError "expected 1 line, got more") :=
  C5_single_line_assert ["get_connected_devices"] "1\n2\nACK"
    (by decide) (by decide) (by decide)

/-! ## C6: trigger-mode validation -/

theorem validTriggerMode_ascii {ch : String} (h : validTriggerMode ch = true) :
    isAscii ch = true := by
  unfold validTriggerMode at h
  simp only [Bool.or_eq_true, decide_eq_true_eq] at h
  rcases h with ((((h | h) | h) | h) | h) <;> subst h <;> decide

theorem isArgErr_parseResponse (resp : String) (m : Bool) :
    isArgErr (parseResponse resp m) = false := by
  simp only [parseResponse]
  repeat first
  | rfl
  | split

theorem checkTriggerModes_none {channels : List String}
    (h : ∀ ch ∈ channels, validTriggerMode ch = true) :
    ∀ ii, checkTriggerModes ii channels = Option.none := by
  induction channels with
  | nil => intro ii; rfl
  | cons x xs ih =>
    intro ii
    have hx := h x (by simp)
    simp only [checkTriggerModes, hx, if_true]
    exact ih (fun ch hc => h ch (by simp [hc])) (ii + 1)

theorem checkTriggerModes_isSome (channels : List String) :
    (∃ ch ∈ channels, validTriggerMode ch = false) →
    ∀ ii, (checkTriggerModes ii channels).isSome = true := by
  induction channels with
  | nil =>
    intro h
    rcases h with ⟨ch, hmem, _⟩
    cases hmem
  | cons x xs ih =>
    intro h ii
    by_cases hx : validTriggerMode x = true
    · have hxs : ∃ ch ∈ xs, validTriggerMode ch = false := by
        rcases h with ⟨ch, hmem, hv⟩
        rcases List.mem_cons.mp hmem with rfl | hmem2
        · rw [hx] at hv
          cases hv
        · exact ⟨ch, hmem2, hv⟩
      simp only [checkTriggerModes, hx, if_true]
      exact ih hxs (ii + 1)
    · simp [checkTriggerModes, hx]

/-- C6: for every sequence of trigger-mode strings each drawn from
{empty, high, low, negedge, posedge}, `set_trigger` sends exactly one
comma-joined request and raises no `ArgumentError`; for every sequence
containing a mode outside that set, it fails with `ArgumentError` before any
network I/O occurs (nothing is sent). -/
theorem C6_set_trigger (channels : List String) (resp : String) :
    ((∀ ch ∈ channels, validTriggerMode ch = true) →
      (set_trigger channels resp).2 =
        [asciiBytes (requestString ("set_trigger" :: channels))] ∧
      isArgErr (set_trigger channels resp).1 = false) ∧
    ((∃ ch ∈ channels, validTriggerMode ch = false) →
      isArgErr (set_trigger channels resp).1 = true ∧
      (set_trigger channels resp).2 = []) := by
  constructor
  · intro h
    have hck := checkTriggerModes_none h 0
    have hascii : isAscii (requestString ("set_trigger" :: channels)) = true := by
      apply requestString_ascii
      intro f hf
      rcases List.mem_cons.mp hf with rfl | hmem
      · decide
      · exact validTriggerMode_ascii (h f hmem)
    have hset : set_trigger channels resp =
        command ("set_trigger" :: channels) false resp := by
      simp [set_trigger, hck]
    rw [hset, command_eq hascii]
    exact ⟨rfl, isArgErr_parseResponse resp false⟩
  · intro h
    have hsome := checkTriggerModes_isSome channels h 0
    rcases Option.isSome_iff_exists.mp hsome with ⟨msg, hmsg⟩
    simp [set_trigger, hmsg, isArgErr]

/-- Witness for C6: an all-valid mode list sends the joined request, and a
list containing `bogus` fails locally with nothing sent. -/
theorem C6_set_trigger_witness :
    ((set_trigger ["high", ""] "ACK").2 =
        [asciiBytes (requestString ["set_trigger", "high", ""])] ∧
      isArgErr (set_trigger ["high", ""] "ACK").1 = false) ∧
    (isArgErr (set_trigger ["bogus"] "ACK").1 = true ∧
      (set_trigger ["bogus"] "ACK").2 = []) := by
  constructor
  · exact (C6_set_trigger ["high", ""] "ACK").1 (by decide)
  · exact (C6_set_trigger ["bogus"] "ACK").2 ⟨"bogus", by decide, by decide⟩

/-! ## C7: multiline sample-rate decoding -/

/-- C7: decoding the sample-rate listing response
`"1200, 500\n2400, 500\nACK"` yields the integer pairs
`[(1200, 500), (2400, 500)]` in response order; in general a data row of two
integer-parsing fields decodes to the ordered (digital, analog) pair. -/
theorem C7_sample_rates :
    get_available_sample_rates "1200, 500\n2400, 500\nACK" =
      .ok [(1200, 500), (2400, 500)] ∧
    ∀ d a dv av, pyInt d = .ok dv → pyInt a = .ok av →
      decodeRatePair [d, a] = .ok (dv, av) := by
  refine ⟨by rfl, fun d a dv av hd ha => ?_⟩
  simp [decodeRatePair, hd, ha]

/-- Witness for C7's general clause at a concrete row. -/
theorem C7_sample_rates_witness : decodeRatePair ["7", "8"] = .ok (7, 8) :=
  C7_sample_rates.2 "7" "8" 7 8 (by decide) (by decide)

/-! ## C8: active-channel partitioning -/

/-- C8: `get_active_channels` on the response line
`"digital_channels, 0, 1, analog_channels, 2"` yields the record with
digital channels `[0, 1]` and analog channels `[2]`. -/
theorem C8_active_channels :
    get_active_channels "digital_channels, 0, 1, analog_channels, 2\nACK" =
      .ok ⟨[0, 1], [2]⟩ := by rfl

/-! ## C9: get_inputs is permanently unsupported -/

/-- C9: `get_inputs` fails immediately with `NotImplementedError` (the
spec's `UnsupportedOperationError`) and performs no network I/O: the list of
sent requests is empty. -/
theorem C9_get_inputs :
    get_inputs = (Except.error Err.notImplementedError, ([] : List (List Nat))) := rfl

/-! ## C10: the uninitialized accumulator in get_active_channels -/

theorem pyInt_error_eq {s : String} {e : Err} (h : pyInt s = .error e) :
    e = .valueError s := by
  unfold pyInt at h
  split at h <;> split at h <;> simp_all

theorem partition_some_no_attr (toks : List String) :
    ∀ (d a : List Int) (c : Cur),
      isAttrErrP (partitionChannels toks d a (some c)) = false := by
  induction toks with
  | nil => intro d a c; rfl
  | cons el rest ih =>
    intro d a c
    by_cases h1 : el = "digital_channels"
    · simp [partitionChannels, h1, ih]
    · by_cases h2 : el = "analog_channels"
      · simp [partitionChannels, h1, h2, ih]
      · cases c with
        | dig =>
          cases hp : pyInt el with
          | error e =>
            have he := pyInt_error_eq hp
            subst he
            simp [partitionChannels, h1, h2, hp, isAttrErrP]
          | ok v => simp [partitionChannels, h1, h2, hp, ih]
        | ana =>
          cases hp : pyInt el with
          | error e =>
            have he := pyInt_error_eq hp
            subst he
            simp [partitionChannels, h1, h2, hp, isAttrErrP]
          | ok v => simp [partitionChannels, h1, h2, hp, ih]

theorem partition_marker_head_no_attr {el : String} (rest : List String)
    (h : isMarker el = true) :
    isAttrErrP (partitionChannels (el :: rest) [] [] Option.none) = false := by
  unfold isMarker at h
  simp only [Bool.or_eq_true, decide_eq_true_eq] at h
  rcases h with h | h
  · simp [partitionChannels, h, partition_some_no_attr]
  · simp [partitionChannels, h, partition_some_no_attr]

theorem markerPrecedes_head {el : String} {rest : List String}
    (h : markerPrecedes (el :: rest) = true) : isMarker el = true := by
  unfold markerPrecedes at h
  have h0 := List.all_eq_true.mp h 0 (by simp)
  simpa using h0

/-- C10: the decoder of `get_active_channels` assumes the line starts with a
marker token.  First, for any `ACK` response whose single data line begins
with a non-marker field, the operation fails with an `AttributeError`
(appending to the uninitialized `current = None` accumulator), which is none
of the declared error kinds.  Second, under the precondition that a marker
field precedes every non-marker field, that error branch is unreachable. -/
theorem C10_unguarded_accumulator :
    (∀ resp el fs,
      (command ["get_active_channels"] false resp).1 = .ok (.line (el :: fs)) →
      isMarker el = false →
      get_active_channels resp =
        .error (.attributeError "NoneType object has no attribute append")) ∧
    (∀ resp toks,
      (command ["get_active_channels"] false resp).1 = .ok (.line toks) →
      markerPrecedes toks = true →
      isAttrErr (get_active_channels resp) = false) := by
  constructor
  · intro resp el fs hcmd hm
    have h1 : ¬(el = "digital_channels") := by
      intro e
      rw [e] at hm
      cases hm
    have h2 : ¬(el = "analog_channels") := by
      intro e
      rw [e] at hm
      cases hm
    unfold get_active_channels
    rw [hcmd]
    simp [partitionChannels, h1, h2]
  · intro resp toks hcmd hp
    unfold get_active_channels
    rw [hcmd]
    cases toks with
    | nil => rfl
    | cons el rest =>
      have hm := markerPrecedes_head hp
      have hnoattr := partition_marker_head_no_attr rest hm
      cases hq : partitionChannels (el :: rest) [] [] Option.none with
      | ok p =>
        obtain ⟨d, a⟩ := p
        simp [hq, isAttrErr]
      | error e =>
        rw [hq] at hnoattr
        cases e <;> simp_all [isAttrErr, isAttrErrP]

/-- Witness for C10: a line starting with `bogus` hits the `AttributeError`,
and a line led by a marker does not. -/
theorem C10_unguarded_accumulator_witness :
    get_active_channels "bogus, 1\nACK" =
      .error (.attributeError "NoneType object has no attribute append") ∧
    isAttrErr (get_active_channels "digital_channels, 1\nACK") = false := by
  constructor
  · exact C10_unguarded_accumulator.1 "bogus, 1\nACK" "bogus" ["1"] (by rfl) (by rfl)
  · exact C10_unguarded_accumulator.2 "digital_channels, 1\nACK"
      ["digital_channels", "1"] (by rfl) (by rfl)

end Pylogic
